import Mathlib

/-
Verification development for the document export pipeline of the
myotextbook server (source: src/unnamed/part_001).

The pipeline's effectful parts (file system, child processes, HTTP
fetches) are shallowly embedded: pure computations are translated
directly; external-tool and network outcomes are supplied as explicit
oracle data (per-item fields and an `ExportEnv` record of outcomes), and
files are identified with their contents.  Progress reporting, page-break
bookkeeping, failure collection and the PDF assembly sequence are modelled
exactly as in `exportProjectTo` (part_001 lines 1373-1889), `setProgress`
(lines 439-446), `fetchHtml` (lines 891-949), `convertUrlToMdSmart`
(lines 1276-1328) and the export route (lines 2675-2709).
-/

namespace Myo

/-- JS `String.prototype.includes(pat)`: `pat` occurs as a contiguous
substring of `s`. -/
def jsIncludes (s pat : String) : Bool := decide (pat.data <:+: s.data)

/-- JS `a || b` for strings: the empty string is falsy. -/
def jsOr (a b : String) : String := if a = "" then b else a

/-- Whitespace characters recognised by the trim model. -/
def isWsChar (c : Char) : Bool := c = ' ' || c = '\t' || c = '\n' || c = '\r'

/-- JS `String.prototype.trim()`, implemented structurally over the
character list (the core `String.trim` does not reduce in the kernel). -/
def jsTrim (s : String) : String :=
  ⟨((s.data.dropWhile isWsChar).reverse.dropWhile isWsChar).reverse⟩

/-- Split a character list on a separator character (structural model of
`String.splitOn` on a one-character separator). -/
def splitOnChar (sep : Char) : List Char → List (List Char)
  | [] => [[]]
  | c :: rest =>
    let r := splitOnChar sep rest
    if c = sep then [] :: r
    else
      match r with
      | [] => [[c]]
      | g :: gs => (c :: g) :: gs

/-- ASCII lower-casing of a character (structural model of
`toLowerCase`). -/
def lowerChar (c : Char) : Char :=
  if 'A' ≤ c ∧ c ≤ 'Z' then Char.ofNat (c.toNat + 32) else c

/-- ASCII `toLowerCase`, structurally over the character list. -/
def strToLower (s : String) : String := ⟨s.data.map lowerChar⟩

/-- Node `path.basename`: the final path component. -/
def basename (p : String) : String := ⟨(splitOnChar (Char.ofNat 47) p.data).getLastD p.data⟩

/-- Node `path.extname`: extension of the basename including the dot;
empty when there is none or when the only dot is a leading dot. -/
def extname (p : String) : String :=
  match splitOnChar (Char.ofNat 46) (basename p).data with
  | [] => ""
  | [_] => ""
  | first :: rest =>
      if first = [] && rest.length = 1 then "" else "." ++ String.mk (rest.getLastD [])

/-- Item types stored in the `items` table. -/
inductive ItemType
  | heading | titlepage | url | wikipedia | image | pdf | docx
deriving DecidableEq, Repr

/-- Entry pushed to `wikipediaAttribution` (part_001 line 1282). -/
structure WikiAttr where
  title : String
  url : String
  revision : Option String := none
deriving DecidableEq, Repr

/-- Entry pushed to `nonWikiAttribution` (lines 1650, 1686). -/
structure WebAttr where
  kind : String
  title : String
  url : String
  accessed : String
deriving DecidableEq, Repr

/-- Entry pushed to `failedPages` (lines 1629-1633, 1653). -/
structure FailedPage where
  title : String
  url : String
  error : String
deriving DecidableEq, Repr

/-- One item of the project snapshot.  Besides the row columns
(`id`, `type`, `title`, `source_url`, `cached_content`, options), the
structure carries the outcomes of the item's external interactions as
oracle fields: `resolvedPath` is the result of `resolveLocalPath`,
`urlContent` is the content `convertUrlToMdSmart` wrote to the out file
(or the error it threw), `pdfText`/`pdfHasText`/`pdfPageCount` are the
results of the PDF text-extraction tools, `docxMd` the pandoc docx→gfm
output, `imgUrlExt` the result of `safeExtFromUrl`, and `imgDownloadOk`
whether `downloadToFile` succeeded. -/
structure Item where
  id : String := ""
  type : ItemType
  title : String := ""
  sourceUrl : String := ""
  cachedContent : Option String := none
  subtitle : Option String := none
  caption : Option String := none
  widthPct : Option Int := none
  hasLocalPath : Bool := false
  resolvedPath : Option String := none
  urlContent : Except String String := .ok ""
  isWiki : Bool := false
  wikiAttr : Option WikiAttr := none
  pdfPageCount : Option Nat := none
  pdfText : String := ""
  pdfHasText : Bool := false
  docxMd : String := ""
  imgUrlExt : String := "jpg"
  imgDownloadOk : Bool := true
  accessedDate : String := ""
deriving Repr

/-- Row of the `users` table, as read by `authorBanner`. -/
structure UserRow where
  firstName : String := ""
  lastName : String := ""
  affiliation : String := ""
deriving DecidableEq, Repr

/-- Columns of the project row used by the export pipeline. -/
structure Project where
  id : String := "p1"
  name : String := "Untitled"
  authorUsername : String := ""
  originalAuthorUsername : String := ""
  isCopy : Bool := false
deriving DecidableEq, Repr

/-- Export options destructured at part_001 line 1401. -/
structure ExportOptions where
  showPageNumbers : Bool := true
  includeToc : Bool := true
deriving DecidableEq, Repr

/-- Result of `findPdfMerger` (lines 580-625). -/
structure Merger where
  tool : String
  path : String
deriving DecidableEq, Repr

/-- Export formats accepted by `exportProjectTo`. -/
inductive ExportFormat
  | pdf | epub | markdown
deriving DecidableEq, Repr

/-- Element of `pdfSequence` (lines 1409, 1472, 1561, 1567, 1795):
either a native PDF component or a batch of markdown input files
(files are identified with their contents). -/
inductive SeqElem
  | pdf (path : String) (descr : String)
  | mdBatch (batchInputs : List String) (descr : String)
deriving DecidableEq, Repr

/-- Environment of external outcomes for one export job: which PDF
engines `findPdfEngine` located, whether the pandoc invocations succeed
(`titlePageRenderOk`, `batchRender` indexed by batch counter and engine
path, `epubRender`), the effect of `scrubMarkdownForPdf` on a file
content (`scrub`, returning the rewritten content and the `hadSvg` flag),
the merger found by `findPdfMerger` and the outcome of running it, the
user table, and the clock. -/
structure ExportEnv where
  tectonicPath : Option String := none
  xelatexPath : Option String := none
  titlePageRenderOk : Bool := true
  scrub : String → String × Bool := fun s => (s, false)
  batchRender : Nat → String → Except String Unit := fun _ _ => .ok ()
  epubRender : Except String Unit := .ok ()
  merger : Option Merger := none
  mergeRun : Except String Unit := .ok ()
  rmWorkdirOk : Bool := true
  users : String → Option UserRow := fun _ => none
  today : String := ""
  outPath : String := "out"

/-- Accumulator of the item loop (lines 1408-1410, 1486-1488) plus the
failure/attribution collectors declared at lines 1374-1377.  `msgs`
records every `report(...)` message in order; `breakTrace` records, for
each processed item, whether a forced page break was pushed just before
it; `scrubRuns` counts the invocations of `scrubMarkdownForPdf`. -/
structure LoopState where
  inputs : List String := []
  pdfSequence : List SeqElem := []
  hasMarkdownContent : Bool := false
  isFirstItem : Bool := true
  lastWasHeading : Bool := false
  failedPages : List FailedPage := []
  wikipediaAttribution : List WikiAttr := []
  nonWikiAttribution : List WebAttr := []
  sawAnySvg : Bool := false
  msgs : List String := []
  breakTrace : List Bool := []
  scrubRuns : Nat := 0

/-- Forced page-break marker file content (lines 1506, 1519). -/
def pagebreakMd : String := "\\clearpage\n\n<div class=\"pagebreak\"></div>\n"

/-- Failure reason recorded for a bot-protected page (lines 1629-1633). -/
def botProtectionError : String :=
  "Site uses bot protection (Cloudflare). Cannot be automatically fetched."

/-- Marker file content written by `convertUrlToMdSmart` for a
bot-protected site (line 1320). -/
def botMarkerContent : String :=
  "Bot protection detected: This website uses bot protection (Cloudflare) and cannot be automatically fetched."

/-- Bot-protection placeholder check applied to the out-file content
(line 1627). -/
def botMarkerHit (content : String) : Bool :=
  jsIncludes content "This website uses bot protection"
    || jsIncludes content "cannot be automatically fetched"

/-- Page-count suffix for a PDF item title (line 1532). -/
def pageInfoOf : Option Nat → String
  | some n => " (" ++ toString n ++ " page" ++ (if n = 1 then "" else "s") ++ ")"
  | none => ""

/-- Alt text of the emitted image directive: `caption || it.title || "Image"`
(line 1698); `caption` is already trimmed. -/
def imageAlt (caption title : String) : String := jsOr caption (jsOr title "Image")

/-- Effective width percentage:
`Math.min(100, Math.max(10, Number(opts.widthPct || 80)))` (line 1672). -/
def effectiveWidthPct (w : Option Int) : Int :=
  min 100 (max 10 (match w with
    | none => (80 : Int)
    | some v => if v = 0 then 80 else v))

/-- Markdown image directive emitted for an image item (line 1698). -/
def imageDirective (alt filename : String) (widthPct : Int) : String :=
  "![" ++ alt ++ "](" ++ filename ++ ")\x7bwidth=" ++ toString widthPct ++ "%\x7d\n\n"

/-- Shared tail of the image branch (lines 1694-1707): optional title
heading, the image directive, push, report. -/
def emitImage (st : LoopState) (it : Item) (caption : String) (widthPct : Int)
    (filename : String) : LoopState :=
  let itemMd := (if it.title ≠ "" then "# " ++ it.title ++ "\n\n" else "")
      ++ imageDirective (imageAlt caption it.title) filename widthPct
  { st with
      inputs := st.inputs ++ [itemMd],
      msgs := st.msgs ++ ["Added image: " ++ it.title],
      isFirstItem := false }

/-- Body of the url/wikipedia branch after the out-file content (or the
thrown error) is known (lines 1626-1657).  `cachedUsed` tells whether the
content came from `it.cached_content` (in which case the wikipedia path
of `convertUrlToMdSmart`, and hence its attribution push, did not run). -/
def processUrlContent (env : ExportEnv) (st : LoopState) (it : Item)
    (contentRes : Except String String) (cachedUsed : Bool) : LoopState :=
  match contentRes with
  | .error msg =>
    { st with
        failedPages := st.failedPages ++ [⟨it.title, it.sourceUrl, msg⟩],
        msgs := st.msgs ++ ["Skipped page (fetch error): " ++ it.title],
        isFirstItem := false }
  | .ok content =>
    let stw := { st with wikipediaAttribution := st.wikipediaAttribution ++
        (if ¬cachedUsed ∧ it.isWiki then it.wikiAttr.toList else []) }
    if botMarkerHit content then
      { stw with
          failedPages := stw.failedPages ++ [⟨it.title, it.sourceUrl, botProtectionError⟩],
          msgs := stw.msgs ++ ["Skipped (bot protection): " ++ it.title],
          isFirstItem := false }
    else
      let scrubbed := env.scrub ("# " ++ it.title ++ "\n\n" ++ content)
      let webPush : List WebAttr :=
        if it.type = ItemType.url ∧ it.sourceUrl ≠ "" ∧ ¬it.isWiki then
          [⟨"web", it.title, it.sourceUrl, it.accessedDate⟩]
        else []
      { stw with
          inputs := stw.inputs ++ [scrubbed.1],
          scrubRuns := stw.scrubRuns + 1,
          sawAnySvg := stw.sawAnySvg || scrubbed.2,
          nonWikiAttribution := stw.nonWikiAttribution ++ webPush,
          msgs := stw.msgs ++ ["Added URL: " ++ it.title],
          isFirstItem := false }

/-- One iteration of the item loop (lines 1491-1709). -/
def processItem (format : ExportFormat) (env : ExportEnv) (st : LoopState)
    (it : Item) : LoopState :=
  if it.type = ItemType.titlepage then
    { st with
        isFirstItem := false, lastWasHeading := false,
        breakTrace := st.breakTrace ++ [false] }
  else if it.type = ItemType.heading then
    let brk := !st.isFirstItem && !st.lastWasHeading
    let st1 := if brk then { st with inputs := st.inputs ++ [pagebreakMd] } else st
    { st1 with
        inputs := st1.inputs ++ ["# " ++ it.title ++ "\n\n"],
        msgs := st1.msgs ++ ["Added Heading: " ++ it.title],
        isFirstItem := false, lastWasHeading := true,
        breakTrace := st1.breakTrace ++ [brk] }
  else
    let brk := !st.isFirstItem && !st.lastWasHeading
    let st0 := if brk then { st with inputs := st.inputs ++ [pagebreakMd] } else st
    let st1 := { st0 with lastWasHeading := false, breakTrace := st0.breakTrace ++ [brk] }
    match it.type with
    | ItemType.pdf =>
      match it.resolvedPath with
      | none => { st1 with msgs := st1.msgs ++ ["Skipped missing PDF"], isFirstItem := false }
      | some abs =>
        let pageInfo := pageInfoOf it.pdfPageCount
        if format = ExportFormat.markdown ∨ format = ExportFormat.epub then
          let m0 := "# " ++ it.title ++ pageInfo ++ "\n\n"
          let msgs1 := st1.msgs ++ ["Extracting text from PDF: " ++ basename abs ++ "..."]
          if it.pdfText ≠ "" ∧ it.pdfHasText then
            let itemMd := m0 ++ "*Text extracted from PDF: " ++ basename abs ++ "*\n\n"
                ++ it.pdfText ++ "\n\n" ++ "---\n\n"
            { st1 with
                inputs := st1.inputs ++ [itemMd],
                msgs := msgs1 ++ ["✓ Added PDF with extracted text ("
                  ++ toString it.pdfText.length ++ " chars): " ++ it.title ++ pageInfo],
                isFirstItem := false }
          else
            let itemMd := m0 ++ "*PDF Document: " ++ basename abs
                ++ " - Text extraction not available (may be scanned/image-based)*\n\n"
            { st1 with
                inputs := st1.inputs ++ [itemMd],
                msgs := msgs1 ++ ["⚠️ Added PDF (no extractable text): " ++ it.title ++ pageInfo],
                isFirstItem := false }
        else
          let st2 := if st1.inputs ≠ [] then
              { st1 with
                  pdfSequence := st1.pdfSequence
                    ++ [SeqElem.mdBatch st1.inputs "Markdown content batch"],
                  inputs := [], hasMarkdownContent := true }
            else st1
          { st2 with
              pdfSequence := st2.pdfSequence ++ [SeqElem.pdf abs it.title],
              msgs := st2.msgs ++ ["Added PDF in sequence: " ++ it.title],
              isFirstItem := false }
    | ItemType.docx =>
      match it.resolvedPath with
      | none => { st1 with msgs := st1.msgs ++ ["Skipped missing DOCX"], isFirstItem := false }
      | some _abs =>
        let scrubbed := env.scrub ("# " ++ it.title ++ "\n\n" ++ it.docxMd)
        { st1 with
            inputs := st1.inputs ++ [scrubbed.1],
            scrubRuns := st1.scrubRuns + 1,
            sawAnySvg := st1.sawAnySvg || scrubbed.2,
            msgs := st1.msgs ++ ["Added DOCX: " ++ it.title],
            isFirstItem := false }
    | ItemType.url =>
      match it.cachedContent with
      | some c =>
        processUrlContent env
          { st1 with msgs := st1.msgs ++ ["Using cached content: " ++ it.title] }
          it (.ok c) true
      | none => processUrlContent env st1 it it.urlContent false
    | ItemType.wikipedia => processUrlContent env st1 it it.urlContent false
    | ItemType.image =>
      let caption := jsTrim (match it.caption with | some c => c | none => "")
      let widthPct := effectiveWidthPct it.widthPct
      if it.hasLocalPath then
        match it.resolvedPath with
        | none => { st1 with msgs := st1.msgs ++ ["Skipped missing image"], isFirstItem := false }
        | some abs =>
          let ext := strToLower (jsOr (extname abs) ".bin")
          emitImage st1 it caption widthPct ("img-" ++ it.id ++ ext)
      else if it.sourceUrl ≠ "" then
        if it.imgDownloadOk then
          let st2 := { st1 with nonWikiAttribution := st1.nonWikiAttribution
              ++ [⟨"image", it.title, it.sourceUrl, it.accessedDate⟩] }
          emitImage st2 it caption widthPct ("img-" ++ it.id ++ "." ++ it.imgUrlExt)
        else
          { st1 with
              msgs := st1.msgs ++ ["Skipped image (download error): " ++ it.title],
              isFirstItem := false }
      else
        emitImage st1 it caption widthPct ("img-" ++ it.id)
    | _ => st1

/-- The item loop (line 1491): left fold of `processItem` over the
snapshot. -/
def processItems (format : ExportFormat) (env : ExportEnv) (items : List Item)
    (st : LoopState) : LoopState :=
  items.foldl (processItem format env) st

/-- One fetch response: body text, `res.ok` and status data. -/
structure FetchResponse where
  body : String
  ok : Bool := true
  status : Nat := 200
  statusText : String := "OK"
deriving DecidableEq, Repr

/-- Cloudflare challenge markers checked by `fetchHtml` (line 925). -/
def cfMarker (html : String) : Bool :=
  jsIncludes html "Just a moment" || jsIncludes html "cf-browser-verification"
    || jsIncludes html "challenge-platform"

/-- Error thrown on the last attempt when the challenge page is detected
(line 931). -/
def cfChallengeMsg (url : String) : String :=
  "Site requires browser verification (Cloudflare protection). Cannot fetch: " ++ url

/-- Final error of the retry loop (line 948); the user-agent list has
fixed length 4. -/
def fetchFailedMsg (url : String) (lastError : String) : String :=
  "Fetch failed for " ++ url ++ " after 4 attempts: " ++ lastError

/-- Retry loop of `fetchHtml` (lines 891-949); `attempts` holds, for each
of the four user agents in order, either the network error thrown by
`fetch` or the response obtained. -/
def fetchHtmlGo (url : String) :
    List (Except String FetchResponse) → Option String → Except String String
  | [], lastError =>
    .error (fetchFailedMsg url (match lastError with | some e => e | none => ""))
  | .error e :: rest, _ => fetchHtmlGo url rest (some e)
  | .ok r :: rest, lastError =>
    if cfMarker r.body then
      if rest.isEmpty then fetchHtmlGo url [] (some (cfChallengeMsg url))
      else fetchHtmlGo url rest lastError
    else if !r.ok then
      fetchHtmlGo url rest (some ("HTTP " ++ toString r.status ++ " " ++ r.statusText))
    else .ok r.body

/-- `fetchHtml` over the per-user-agent attempt outcomes. -/
def fetchHtml (url : String) (attempts : List (Except String FetchResponse)) :
    Except String String :=
  fetchHtmlGo url attempts none

/-- Model of `convertUrlToMdSmart` (lines 1276-1328), returning the
content written to the out file or the error thrown.  For a wikipedia URL
it takes the wikipedia path (`wikiHtml` is the outcome of
`fetchWikipediaHtmlByTitle`, `convertMd` the HTML→markdown conversion;
title parsing and the attribution push are modelled at the loop level).
Otherwise it fetches through `fetchHtml` and converts the extracted main
content via `extractAndConvert`; a thrown error whose message mentions
browser verification or Cloudflare is replaced by the bot-protection
marker file instead of rethrowing (lines 1317-1324). -/
def convertUrlToMdSmart (isWiki : Bool) (wikiHtml : Except String String)
    (convertMd : String → String) (url : String)
    (attempts : List (Except String FetchResponse))
    (extractAndConvert : String → String) : Except String String :=
  if isWiki then
    match wikiHtml with
    | .ok h => .ok (convertMd h)
    | .error e => .error e
  else
    match fetchHtml url attempts with
    | .ok raw => .ok (extractAndConvert raw)
    | .error msg =>
      if jsIncludes msg "browser verification" || jsIncludes msg "Cloudflare" then
        .ok botMarkerContent
      else .error msg

/-- The `users`-table lookup of `authorBanner`: `db...get(u) || {}`. -/
def lookupUser (env : ExportEnv) (username : String) : UserRow :=
  match env.users username with
  | some u => u
  | none => { }

/-- The `authorBanner` helper (lines 1388-1399). -/
def authorBanner (env : ExportEnv) (md : String) (project : Project) : String :=
  let u1 := lookupUser env (jsOr project.authorUsername "andrew")
  let uO := lookupUser env
      (jsOr (jsOr project.originalAuthorUsername project.authorUsername) "andrew")
  let a1 := jsTrim (u1.firstName ++ " " ++ u1.lastName)
  let aff1 := jsTrim u1.affiliation
  let aO := jsTrim (uO.firstName ++ " " ++ uO.lastName)
  let affO := jsTrim uO.affiliation
  let parts := ["**Reader collection assembled by " ++ jsOr a1 project.authorUsername ++ "**"
      ++ (if aff1 ≠ "" then " of " ++ aff1 else "") ++ "."]
  let parts := parts ++ (if project.isCopy then
      ["Based on a previous version originally assembled by **"
        ++ jsOr aO project.originalAuthorUsername ++ "**"
        ++ (if affO ≠ "" then " of " ++ affO else "") ++ "."]
    else [])
  String.intercalate "\n\n" (md :: parts)

/-- One wikipedia attribution bullet (line 1724). -/
def wikiAttrLine (today : String) (e : WikiAttr) : String :=
  "• " ++ e.title ++ " — " ++ e.url
    ++ (match e.revision with | some r => " (rev " ++ r ++ ")" | none => "")
    ++ " (accessed " ++ today ++ ")\n\n"

/-- One web/image source bullet (lines 1730-1733). -/
def webAttrLine (e : WebAttr) : String :=
  let label := if e.kind = "image" then "(image)" else "(web)"
  "• " ++ jsOr (jsTrim e.title) "(Untitled)" ++ " — " ++ e.url ++ " " ++ label
    ++ " (accessed " ++ e.accessed ++ ")\n\n"

/-- Content of the `zzz-attribution.md` file (lines 1712-1738). -/
def attributionContent (env : ExportEnv) (project : Project)
    (wiki : List WikiAttr) (nonWiki : List WebAttr) : String :=
  String.join
    (["\\clearpage\n\n<div class=\"pagebreak\"></div>\n\n",
      authorBanner env "" project ++ "\n\n"]
     ++ (if wiki ≠ [] then
          ["## Attributions\n\n",
           "This document includes content from Wikipedia, available under the Creative Commons Attribution-ShareAlike License (CC BY-SA).\n\n"]
          ++ wiki.map (wikiAttrLine env.today)
        else [])
     ++ (if nonWiki ≠ [] then ["## Sources\n\n"] ++ nonWiki.map webAttrLine else []))

/-- Attribution phase after the item loop (lines 1711-1743): when any
attribution was collected, scrub and push the attribution file. -/
def attributionPhase (env : ExportEnv) (project : Project) (st : LoopState) : LoopState :=
  if st.wikipediaAttribution ≠ [] ∨ st.nonWikiAttribution ≠ [] then
    let scrubbed := env.scrub
        (attributionContent env project st.wikipediaAttribution st.nonWikiAttribution)
    { st with
        inputs := st.inputs ++ [scrubbed.1],
        scrubRuns := st.scrubRuns + 1,
        sawAnySvg := st.sawAnySvg || scrubbed.2,
        msgs := st.msgs ++ ["Added attribution page"] }
  else st

/-- Engine fallback loop for one batch (lines 1817-1838): returns the
`lastErr` left after the loop (`none` after a successful attempt, the
last error when every engine failed). -/
def tryEngines (attempt : String → Except String Unit) :
    List String → Option String → Option String
  | [], lastErr => lastErr
  | e :: rest, lastErr =>
    match attempt e with
    | .ok _ => none
    | .error msg =>
      let _ := lastErr
      tryEngines attempt rest (some msg)

/-- Name of the final component produced for a sequence element:
a native PDF keeps its path, the k-th markdown batch is rendered to
`batch-k.pdf` (line 1809). -/
def componentOf : SeqElem → Nat → String
  | .pdf p _, _ => p
  | .mdBatch _ _, n => "batch-" ++ toString n ++ ".pdf"

/-- Rendering loop over `pdfSequence` (lines 1800-1842), carrying the
markdown batch counter.  Returns the report messages it emitted and
either the ordered `finalPdfSequence` or the error that was thrown after
every engine failed on some batch. -/
def renderSequence (env : ExportEnv) (engines : List String) :
    List SeqElem → Nat → List String × Except String (List String)
  | [], _ => ([], .ok [])
  | SeqElem.pdf p _ :: rest, n =>
    let r := renderSequence env engines rest n
    (r.1, match r.2 with | .ok l => .ok (p :: l) | .error e => .error e)
  | SeqElem.mdBatch _ d :: rest, n =>
    let msg := "Rendering markdown batch: " ++ d
    match tryEngines (env.batchRender n) engines none with
    | some err => ([msg], .error err)
    | none =>
      let r := renderSequence env engines rest (n + 1)
      (msg :: r.1,
       match r.2 with
       | .ok l => .ok (("batch-" ++ toString n ++ ".pdf") :: l)
       | .error e => .error e)

/-- Engine detection (lines 1412-1431): the engine paths found by
`findPdfEngine`, tectonic first, then xelatex. -/
def pdfEngines (env : ExportEnv) : List String :=
  env.tectonicPath.toList ++ env.xelatexPath.toList

/-- One progress callback payload (line 1404). -/
structure ProgressEvent where
  step : Nat
  total : Nat
  message : String
deriving DecidableEq, Repr

/-- Progress events produced by the `report` closure (line 1404): the
n-th report (0-based counter) carries `step = min(n+1, totalSteps)`. -/
def mkEvents (total : Nat) : Nat → List String → List ProgressEvent
  | _, [] => []
  | counter, m :: rest =>
    ⟨min (counter + 1) total, total, m⟩ :: mkEvents total (counter + 1) rest

/-- Value returned by `exportProjectTo` on success (lines 1885-1888). -/
structure ExportResult where
  path : String
  failedPages : Option (List FailedPage)
deriving DecidableEq, Repr

/-- Observable trace of one export run: the computed progress total and
all report messages, the scrub-invocation count, the assembled
`pdfSequence` and the rendered `finalPdfSequence`, whether a merge tool
was invoked, whether the single-component copy was taken, whether the
temporary working directory was removed, the markdown output content,
and the collected failure/attribution lists. -/
structure ExportTrace where
  totalSteps : Nat
  msgs : List String
  scrubRuns : Nat := 0
  pdfSeq : List SeqElem := []
  finalPdfSequence : List String := []
  mergeInvoked : Bool := false
  copiedSingle : Bool := false
  workdirRemoved : Bool := false
  outContent : Option String := none
  failedPages : List FailedPage := []
  wikiAttrs : List WikiAttr := []
  webAttrs : List WebAttr := []
deriving DecidableEq, Repr

/-- Trace of a run that ended before the item loop. -/
def baseTrace (totalSteps : Nat) (msgs : List String) : ExportTrace :=
  { totalSteps := totalSteps, msgs := msgs }

/-- Trace fields read off a loop state. -/
def traceOfState (totalSteps : Nat) (st : LoopState) : ExportTrace :=
  { totalSteps := totalSteps, msgs := st.msgs, scrubRuns := st.scrubRuns,
    pdfSeq := st.pdfSequence, failedPages := st.failedPages,
    wikiAttrs := st.wikipediaAttribution, webAttrs := st.nonWikiAttribution }

/-- Progress events of a trace. -/
def traceEvents (t : ExportTrace) : List ProgressEvent :=
  mkEvents t.totalSteps 0 t.msgs

/-- Whether an `Except` models a run that returned without throwing. -/
def exceptIsOk {ε α : Type} : Except ε α → Bool
  | .ok _ => true
  | .error _ => false

/-- Loop state at line 1491: the reports already emitted (workspace,
optional title page, collecting) and the title-page PDF pushed onto the
sequence by lines 1436-1477 (only for PDF format; its render failure is
only logged). -/
def initialLoopState (format : ExportFormat) (env : ExportEnv)
    (titlePageItem : Option Item) : LoopState :=
  match titlePageItem with
  | some t =>
    if format = ExportFormat.pdf then
      let m1 := ["Preparing workspace",
        "Generating Title Page: " ++ jsTrim (jsOr t.title "Untitled")]
      if env.titlePageRenderOk then
        { msgs := m1 ++ ["Title page generated", "Collecting items"],
          pdfSequence := [SeqElem.pdf "titlepage.pdf" "Title page"] }
      else { msgs := m1 ++ ["Collecting items"] }
    else { msgs := ["Preparing workspace", "Collecting items"] }
  | none => { msgs := ["Preparing workspace", "Collecting items"] }

/-- Title prefix of the markdown export (lines 1770-1777). -/
def mdTitleHead : Option Item → String
  | some t => "# " ++ t.title ++ "\n\n"
      ++ (match t.subtitle with
          | some s => if s ≠ "" then "## " ++ s ++ "\n\n" else ""
          | none => "")
      ++ "---\n\n"
  | none => ""

/-- Output phase (lines 1765-1889), starting from the post-attribution
loop state: markdown concatenation, single pandoc run for EPUB, or the
per-batch render / merge / copy sequence for PDF, followed by the
`Done` report and the temp-workspace removal on the successful path. -/
def exportFinish (format : ExportFormat) (env : ExportEnv) (totalSteps : Nat)
    (titlePageItem : Option Item) (engines : List String) (st2 : LoopState) :
    ExportTrace × Except String ExportResult :=
  let okResult : Except String ExportResult :=
    .ok ⟨env.outPath, if st2.failedPages.length > 0 then some st2.failedPages else none⟩
  if format = ExportFormat.markdown then
    let combined := mdTitleHead titlePageItem
        ++ String.join (st2.inputs.map (fun c => c ++ "\n\n"))
    let stF := { st2 with
        msgs := st2.msgs ++ ["Combining markdown files", "Markdown export complete", "Done"] }
    ({ traceOfState totalSteps stF with
        outContent := some combined, workdirRemoved := env.rmWorkdirOk }, okResult)
  else if format = ExportFormat.epub then
    let msgs2 := st2.msgs ++ ["Rendering EPUB with default engine"]
    match env.epubRender with
    | .error e => (traceOfState totalSteps { st2 with msgs := msgs2 }, .error e)
    | .ok _ =>
      let stF := { st2 with msgs := msgs2 ++ ["Pandoc render complete", "Done"] }
      ({ traceOfState totalSteps stF with workdirRemoved := env.rmWorkdirOk }, okResult)
  else
    let seqAll := st2.pdfSequence ++
      (if st2.inputs ≠ [] then [SeqElem.mdBatch st2.inputs "Final markdown content"] else [])
    let r := renderSequence env engines seqAll 0
    let msgs2 := st2.msgs ++ r.1
    match r.2 with
    | .error e =>
      ({ traceOfState totalSteps { st2 with msgs := msgs2 } with pdfSeq := seqAll }, .error e)
    | .ok finalSeq =>
      let msgs3 := msgs2 ++ ["Pandoc rendering complete"]
      if finalSeq.length > 1 then
        let msgs4 := msgs3 ++
          ["Merging " ++ toString finalSeq.length ++ " PDF components in order"]
        match env.merger with
        | none =>
          ({ traceOfState totalSteps { st2 with msgs := msgs4 } with
              pdfSeq := seqAll, finalPdfSequence := finalSeq },
           .error "PDF merge required but no PDF merger tool found. Please install qpdf, pdfunite (poppler-utils), or ghostscript (gs).")
        | some _m =>
          match env.mergeRun with
          | .error e =>
            ({ traceOfState totalSteps { st2 with msgs := msgs4 } with
                pdfSeq := seqAll, finalPdfSequence := finalSeq, mergeInvoked := true },
             .error e)
          | .ok _ =>
            let stF := { st2 with msgs := msgs4 ++ ["PDF export complete", "Done"] }
            ({ traceOfState totalSteps stF with
                pdfSeq := seqAll, finalPdfSequence := finalSeq, mergeInvoked := true,
                workdirRemoved := env.rmWorkdirOk }, okResult)
      else if finalSeq.length = 1 then
        let stF := { st2 with msgs := msgs3 ++ ["PDF export complete", "Done"] }
        ({ traceOfState totalSteps stF with
            pdfSeq := seqAll, finalPdfSequence := finalSeq, copiedSingle := true,
            workdirRemoved := env.rmWorkdirOk }, okResult)
      else
        let stF := { st2 with msgs := msgs3 ++ ["PDF export complete", "Done"] }
        ({ traceOfState totalSteps stF with
            pdfSeq := seqAll, finalPdfSequence := finalSeq,
            workdirRemoved := env.rmWorkdirOk }, okResult)

/-- The export pipeline `exportProjectTo` (lines 1373-1889): progress
total, workspace report, engine detection with early abort, title page,
item loop, attribution, and the format-specific output phase.  A
`.error` result models a thrown job-scoped error reaching the caller. -/
def exportProjectTo (format : ExportFormat) (project : Project) (items : List Item)
    (_options : ExportOptions) (env : ExportEnv) : ExportTrace × Except String ExportResult :=
  let totalSteps := 4 + items.length + (if format = ExportFormat.pdf then 1 else 0)
  let engines := if format = ExportFormat.pdf then pdfEngines env else []
  if format = ExportFormat.pdf ∧ engines = [] then
    (baseTrace totalSteps ["Preparing workspace"],
     .error "No PDF engine detected. Install tectonic or xelatex.")
  else
    let titlePageItem := items.find? (fun it => it.type = ItemType.titlepage)
    let st0 := initialLoopState format env titlePageItem
    let st2 := attributionPhase env project (processItems format env items st0)
    exportFinish format env totalSteps titlePageItem engines st2

/-- One stored progress state (`PROGRESS` map, lines 439-446). -/
structure ProgressState where
  step : Nat
  total : Nat
  message : String
  done : Bool
  error : Option String := none
deriving DecidableEq, Repr

/-- All progress states stored by `setProgress` over the lifetime of one
export job (route lines 2675-2709): the initial state, one state per
progress callback, and the terminal success or error state. -/
def routeExportStates (format : ExportFormat) (project : Project) (items : List Item)
    (options : ExportOptions) (env : ExportEnv) : List ProgressState :=
  let r := exportProjectTo format project items options env
  [⟨0, 1, "Starting export...", false, none⟩]
  ++ (traceEvents r.1).map (fun e => ⟨e.step, e.total, e.message, false, none⟩)
  ++ [match r.2 with
      | .ok _ => ⟨1, 1, "Done", true, none⟩
      | .error e => ⟨1, 1, "Error", true, some e⟩]

/-- Page-break decision for one item given the sequencer flags: title
pages are skipped before the decision point; every other item receives a
break exactly when it is not the first processed item and the previous
item was not a heading (lines 1495-1522). -/
def brkFlagOf (it : Item) (isF lastH : Bool) : Bool :=
  if it.type = ItemType.titlepage then false else !isF && !lastH

/-- Per-item page-break decisions of the whole loop, threading the two
sequencer flags. -/
def breakTraceOf : List Item → Bool → Bool → List Bool
  | [], _, _ => []
  | it :: rest, isF, lastH =>
    brkFlagOf it isF lastH :: breakTraceOf rest false (decide (it.type = ItemType.heading))

theorem processUrlContent_isFirstItem (env : ExportEnv) (st : LoopState) (it : Item)
    (c : Except String String) (cu : Bool) :
    (processUrlContent env st it c cu).isFirstItem = false := by
  unfold processUrlContent
  cases c <;> simp only [] <;> split <;> rfl

theorem processItem_isFirstItem (f : ExportFormat) (env : ExportEnv) (st : LoopState)
    (it : Item) : (processItem f env st it).isFirstItem = false := by
  unfold processItem
  cases htype : it.type <;>
    simp only [htype, reduceCtorEq, if_false, if_true, reduceIte] <;>
    first
      | rfl
      | (repeat' split) <;>
          first
            | rfl
            | apply processUrlContent_isFirstItem
            | simp [emitImage]

theorem processUrlContent_lastWasHeading (env : ExportEnv) (st : LoopState) (it : Item)
    (c : Except String String) (cu : Bool) :
    (processUrlContent env st it c cu).lastWasHeading = st.lastWasHeading := by
  unfold processUrlContent
  cases c <;> simp only [] <;> split <;> rfl

theorem processItem_lastWasHeading (f : ExportFormat) (env : ExportEnv) (st : LoopState)
    (it : Item) :
    (processItem f env st it).lastWasHeading = decide (it.type = ItemType.heading) := by
  unfold processItem
  cases htype : it.type <;>
    simp only [htype, reduceCtorEq, if_false, if_true, reduceIte, decide_True, decide_False] <;>
    first
      | rfl
      | (repeat' split) <;>
          first
            | rfl
            | simp [processUrlContent_lastWasHeading, emitImage]

theorem processUrlContent_breakTrace (env : ExportEnv) (st : LoopState) (it : Item)
    (c : Except String String) (cu : Bool) :
    (processUrlContent env st it c cu).breakTrace = st.breakTrace := by
  unfold processUrlContent
  cases c <;> simp only [] <;> split <;> rfl

theorem processItem_breakTrace (f : ExportFormat) (env : ExportEnv) (st : LoopState)
    (it : Item) :
    (processItem f env st it).breakTrace
      = st.breakTrace ++ [brkFlagOf it st.isFirstItem st.lastWasHeading] := by
  unfold processItem brkFlagOf
  cases htype : it.type <;>
    simp only [htype, reduceCtorEq, if_false, if_true, reduceIte] <;>
    first
      | rfl
      | (repeat' split) <;>
          first
            | rfl
            | simp [processUrlContent_breakTrace, emitImage]

theorem processItems_nil (f : ExportFormat) (env : ExportEnv) (st : LoopState) :
    processItems f env [] st = st := rfl

theorem processItems_cons (f : ExportFormat) (env : ExportEnv) (it : Item)
    (rest : List Item) (st : LoopState) :
    processItems f env (it :: rest) st = processItems f env rest (processItem f env st it) := rfl

theorem processItems_breakTrace (f : ExportFormat) (env : ExportEnv) :
    ∀ (items : List Item) (st : LoopState),
    (processItems f env items st).breakTrace
      = st.breakTrace ++ breakTraceOf items st.isFirstItem st.lastWasHeading
  | [], st => by simp [processItems, breakTraceOf]
  | it :: rest, st => by
    rw [processItems_cons, processItems_breakTrace f env rest,
      processItem_breakTrace, processItem_isFirstItem, processItem_lastWasHeading]
    simp [breakTraceOf]

/-- Number of `scrubMarkdownForPdf` invocations performed for one item:
one for each docx item whose file resolves and each url/wikipedia item
whose content arrives and is not the bot-protection placeholder; zero
otherwise.  Image, pdf, heading and title-page items are never
scrubbed. -/
def itemScrubCount (it : Item) : Nat :=
  match it.type with
  | ItemType.docx => match it.resolvedPath with | some _ => 1 | none => 0
  | ItemType.url =>
    match it.cachedContent with
    | some c => if botMarkerHit c then 0 else 1
    | none =>
      match it.urlContent with
      | .error _ => 0
      | .ok c => if botMarkerHit c then 0 else 1
  | ItemType.wikipedia =>
    match it.urlContent with
    | .error _ => 0
    | .ok c => if botMarkerHit c then 0 else 1
  | _ => 0

theorem processUrlContent_scrubRuns (env : ExportEnv) (st : LoopState) (it : Item)
    (c : Except String String) (cu : Bool) :
    (processUrlContent env st it c cu).scrubRuns
      = st.scrubRuns + (match c with
          | .error _ => 0
          | .ok cc => if botMarkerHit cc then 0 else 1) := by
  unfold processUrlContent
  cases c <;> simp only [] <;> (try split) <;> simp

theorem processItem_scrubRuns (f : ExportFormat) (env : ExportEnv) (st : LoopState)
    (it : Item) :
    (processItem f env st it).scrubRuns = st.scrubRuns + itemScrubCount it := by
  unfold processItem itemScrubCount
  cases htype : it.type <;>
    simp only [htype, reduceCtorEq, if_false, if_true, reduceIte] <;>
    (repeat' split) <;>
    simp_all [processUrlContent_scrubRuns, emitImage]

theorem processItems_scrubRuns (f : ExportFormat) (env : ExportEnv) :
    ∀ (items : List Item) (st : LoopState),
    (processItems f env items st).scrubRuns
      = st.scrubRuns + (items.map itemScrubCount).sum
  | [], st => by simp [processItems]
  | it :: rest, st => by
    rw [processItems_cons, processItems_scrubRuns f env rest, processItem_scrubRuns]
    simp [Nat.add_assoc]

theorem processUrlContent_failedPages (env : ExportEnv) (st : LoopState) (it : Item)
    (c : Except String String) (cu : Bool) :
    ∃ l, (processUrlContent env st it c cu).failedPages = st.failedPages ++ l := by
  unfold processUrlContent
  cases c <;> simp only [] <;> (try split) <;>
    first
      | exact ⟨_, rfl⟩
      | exact ⟨[], by simp⟩

theorem processItem_failedPages (f : ExportFormat) (env : ExportEnv) (st : LoopState)
    (it : Item) :
    ∃ l, (processItem f env st it).failedPages = st.failedPages ++ l := by
  unfold processItem
  cases htype : it.type <;>
    simp only [htype, reduceCtorEq, if_false, if_true, reduceIte] <;>
    (repeat' split) <;>
    first
      | exact processUrlContent_failedPages env _ it _ _
      | exact ⟨_, rfl⟩
      | (refine ⟨[], ?_⟩; simp [emitImage])

theorem processItems_failedPages (f : ExportFormat) (env : ExportEnv) :
    ∀ (items : List Item) (st : LoopState),
    ∃ l, (processItems f env items st).failedPages = st.failedPages ++ l
  | [], st => ⟨[], by simp [processItems]⟩
  | it :: rest, st => by
    obtain ⟨l1, h1⟩ := processItem_failedPages f env st it
    obtain ⟨l2, h2⟩ := processItems_failedPages f env rest (processItem f env st it)
    exact ⟨l1 ++ l2, by rw [processItems_cons, h2, h1, List.append_assoc]⟩

/-- Markdown files pushed onto `inputs` while processing one item during
a markdown export, as a function of the two sequencer flags (defined
through `processItem` itself on a state with empty `inputs`). -/
def emissionsOf (env : ExportEnv) (it : Item) (isF lastH : Bool) : List String :=
  (processItem ExportFormat.markdown env
    { isFirstItem := isF, lastWasHeading := lastH } it).inputs

/-- Markdown files pushed onto `inputs` by the whole loop, threading the
sequencer flags. -/
def mdEmissions (env : ExportEnv) : List Item → Bool → Bool → List String
  | [], _, _ => []
  | it :: rest, isF, lastH =>
    emissionsOf env it isF lastH
      ++ mdEmissions env rest false (decide (it.type = ItemType.heading))

/-- Normalized markdown fragment contributed by one item to a markdown
export, or `none` when the item contributes nothing (title pages, missing
files, fetch failures, bot-protected pages, failed image downloads). -/
def fragmentOf (env : ExportEnv) (it : Item) : Option String :=
  match it.type with
  | ItemType.titlepage => none
  | ItemType.heading => some ("# " ++ it.title ++ "\n\n")
  | ItemType.pdf =>
    match it.resolvedPath with
    | none => none
    | some abs =>
      let m0 := "# " ++ it.title ++ pageInfoOf it.pdfPageCount ++ "\n\n"
      if it.pdfText ≠ "" ∧ it.pdfHasText then
        some (m0 ++ "*Text extracted from PDF: " ++ basename abs ++ "*\n\n"
          ++ it.pdfText ++ "\n\n" ++ "---\n\n")
      else
        some (m0 ++ "*PDF Document: " ++ basename abs
          ++ " - Text extraction not available (may be scanned/image-based)*\n\n")
  | ItemType.docx =>
    match it.resolvedPath with
    | none => none
    | some _ => some (env.scrub ("# " ++ it.title ++ "\n\n" ++ it.docxMd)).1
  | ItemType.url =>
    match it.cachedContent with
    | some c =>
      if botMarkerHit c then none
      else some (env.scrub ("# " ++ it.title ++ "\n\n" ++ c)).1
    | none =>
      match it.urlContent with
      | .error _ => none
      | .ok c =>
        if botMarkerHit c then none
        else some (env.scrub ("# " ++ it.title ++ "\n\n" ++ c)).1
  | ItemType.wikipedia =>
    match it.urlContent with
    | .error _ => none
    | .ok c =>
      if botMarkerHit c then none
      else some (env.scrub ("# " ++ it.title ++ "\n\n" ++ c)).1
  | ItemType.image =>
    let caption := jsTrim (match it.caption with | some c => c | none => "")
    let widthPct := effectiveWidthPct it.widthPct
    let body := fun (filename : String) =>
      (if it.title ≠ "" then "# " ++ it.title ++ "\n\n" else "")
        ++ imageDirective (imageAlt caption it.title) filename widthPct
    if it.hasLocalPath then
      match it.resolvedPath with
      | none => none
      | some abs => some (body ("img-" ++ it.id ++ strToLower (jsOr (extname abs) ".bin")))
    else if it.sourceUrl ≠ "" then
      if it.imgDownloadOk then some (body ("img-" ++ it.id ++ "." ++ it.imgUrlExt))
      else none
    else some (body ("img-" ++ it.id))

theorem processUrlContent_inputs (env : ExportEnv) (st : LoopState) (it : Item)
    (c : Except String String) (cu : Bool) :
    (processUrlContent env st it c cu).inputs
      = st.inputs ++ (match c with
          | .error _ => []
          | .ok cc =>
            if botMarkerHit cc then []
            else [(env.scrub ("# " ++ it.title ++ "\n\n" ++ cc)).1]) := by
  unfold processUrlContent
  cases c <;> simp only [] <;> (try split) <;> simp_all

theorem processItem_inputs_markdown (env : ExportEnv) (st : LoopState) (it : Item) :
    (processItem ExportFormat.markdown env st it).inputs
      = st.inputs ++ emissionsOf env it st.isFirstItem st.lastWasHeading := by
  unfold emissionsOf processItem
  cases htype : it.type <;>
    simp only [htype, reduceCtorEq, reduceIte] <;>
    (repeat' split) <;>
    simp_all [processUrlContent_inputs, emitImage]

theorem processItems_inputs_markdown (env : ExportEnv) :
    ∀ (items : List Item) (st : LoopState),
    (processItems ExportFormat.markdown env items st).inputs
      = st.inputs ++ mdEmissions env items st.isFirstItem st.lastWasHeading
  | [], st => by simp [processItems, mdEmissions]
  | it :: rest, st => by
    rw [processItems_cons, processItems_inputs_markdown env rest,
      processItem_inputs_markdown, processItem_isFirstItem, processItem_lastWasHeading]
    simp [mdEmissions]

theorem emissionsOf_shape (env : ExportEnv) (it : Item) (isF lastH : Bool) :
    emissionsOf env it isF lastH
      = (if brkFlagOf it isF lastH then [pagebreakMd] else [])
        ++ (fragmentOf env it).toList := by
  unfold emissionsOf processItem brkFlagOf fragmentOf
  cases htype : it.type <;>
    simp only [htype, reduceCtorEq, reduceIte] <;>
    (repeat' split) <;>
    simp_all [processUrlContent_inputs, emitImage]

theorem attributionPhase_inputs (env : ExportEnv) (project : Project) (st : LoopState) :
    (attributionPhase env project st).inputs
      = st.inputs ++ (if st.wikipediaAttribution ≠ [] ∨ st.nonWikiAttribution ≠ [] then
          [(env.scrub (attributionContent env project
              st.wikipediaAttribution st.nonWikiAttribution)).1]
        else []) := by
  unfold attributionPhase
  split <;> simp

theorem attributionPhase_attrs (env : ExportEnv) (project : Project) (st : LoopState) :
    (attributionPhase env project st).wikipediaAttribution = st.wikipediaAttribution
      ∧ (attributionPhase env project st).nonWikiAttribution = st.nonWikiAttribution
      ∧ (attributionPhase env project st).failedPages = st.failedPages
      ∧ (attributionPhase env project st).pdfSequence = st.pdfSequence
      ∧ (attributionPhase env project st).scrubRuns
          = st.scrubRuns + (if st.wikipediaAttribution ≠ [] ∨ st.nonWikiAttribution ≠ []
              then 1 else 0) := by
  unfold attributionPhase
  split <;> simp_all

theorem tryEngines_indep_init (attempt : String → Except String Unit) :
    ∀ (engines : List String) (i1 i2 : Option String), engines ≠ [] →
    tryEngines attempt engines i1 = tryEngines attempt engines i2
  | [], _, _, h => absurd rfl h
  | _ :: _, _, _, _ => by
    unfold tryEngines
    split <;> rfl

theorem tryEngines_none_iff (attempt : String → Except String Unit) :
    ∀ (engines : List String) (init : Option String), engines ≠ [] →
    (tryEngines attempt engines init = none
      ↔ engines.any (fun e => exceptIsOk (attempt e)) = true)
  | [], _, h => absurd rfl h
  | e :: rest, init, _ => by
    unfold tryEngines
    rcases hrest : rest with _ | ⟨r2, rest2⟩
    · cases ha : attempt e <;> simp [exceptIsOk, ha, tryEngines]
    · cases ha : attempt e
      · have := tryEngines_none_iff attempt (r2 :: rest2) (some (by exact "")) (by simp)
        simp only [ha]
        rw [tryEngines_indep_init attempt (r2 :: rest2) _ (some "") (by simp)]
        simp [exceptIsOk, this, ha]
      · simp [exceptIsOk, ha]

theorem tryEngines_all_fail (attempt : String → Except String Unit) (msgOf : String → String) :
    ∀ (front : List String) (last : String) (init : Option String),
    (∀ e ∈ front ++ [last], attempt e = .error (msgOf e)) →
    tryEngines attempt (front ++ [last]) init = some (msgOf last)
  | [], last, init, hall => by
    have hl : attempt last = .error (msgOf last) := hall last (by simp)
    simp [tryEngines, hl]
  | f :: front2, last, init, hall => by
    have hf : attempt f = .error (msgOf f) := hall f (by simp)
    have ih := tryEngines_all_fail attempt msgOf front2 last (some (msgOf f))
      (fun x hx => hall x (by simp at hx ⊢; tauto))
    simp [tryEngines, hf, ih]

/-- Whether a sequence element is a markdown batch. -/
def isMdBatch : SeqElem → Bool
  | .mdBatch _ _ => true
  | .pdf _ _ => false

/-- Number of markdown batches among the first `i` sequence elements. -/
def mdCountBefore (seq : List SeqElem) (i : Nat) : Nat :=
  ((seq.take i).filter isMdBatch).length

theorem renderSequence_ok (env : ExportEnv) (engines : List String) :
    ∀ (seq : List SeqElem) (n : Nat) (l : List String),
    (renderSequence env engines seq n).2 = .ok l →
    l.length = seq.length
      ∧ ∀ i, i < seq.length →
          l.getD i "" = componentOf (seq.getD i (SeqElem.pdf "" "")) (n + mdCountBefore seq i)
  | [], n, l, h => by
    simp [renderSequence] at h
    subst h
    simp
  | SeqElem.pdf p d :: rest, n, l, h => by
    simp only [renderSequence] at h
    rcases hr : (renderSequence env engines rest n).2 with e | l2 <;> rw [hr] at h
    · exact absurd h (by simp)
    · have hl : l = p :: l2 := by
        have := h
        simp at this
        exact this.symm
      obtain ⟨ihlen, ihget⟩ := renderSequence_ok env engines rest n l2 hr
      subst hl
      constructor
      · simp [ihlen]
      · intro i hi
        cases i with
        | zero => simp [componentOf, mdCountBefore]
        | succ j =>
          simp only [List.getD_cons_succ]
          have hj : j < rest.length := by simpa using hi
          have := ihget j hj
          rw [this]
          have hcount : mdCountBefore (SeqElem.pdf p d :: rest) (j + 1)
              = mdCountBefore rest j := by
            simp [mdCountBefore, isMdBatch]
          rw [hcount]
  | SeqElem.mdBatch b d :: rest, n, l, h => by
    simp only [renderSequence] at h
    rcases ht : tryEngines (env.batchRender n) engines none with _ | err
    · rw [ht] at h
      simp only [] at h
      rcases hr : (renderSequence env engines rest (n + 1)).2 with e | l2 <;> rw [hr] at h
      · exact absurd h (by simp)
      · have hl : l = ("batch-" ++ toString n ++ ".pdf") :: l2 := by
          have := h
          simp at this
          exact this.symm
        obtain ⟨ihlen, ihget⟩ := renderSequence_ok env engines rest (n + 1) l2 hr
        subst hl
        constructor
        · simp [ihlen]
        · intro i hi
          cases i with
          | zero => simp [componentOf, mdCountBefore]
          | succ j =>
            simp only [List.getD_cons_succ]
            have hj : j < rest.length := by simpa using hi
            have := ihget j hj
            rw [this]
            have hcount : mdCountBefore (SeqElem.mdBatch b d :: rest) (j + 1)
                = mdCountBefore rest j + 1 := by
              simp [mdCountBefore, isMdBatch, Nat.add_comm]
            rw [hcount]
            congr 1
            omega
    · rw [ht] at h
      exact absurd h (by simp)

theorem renderSequence_all_ok (env : ExportEnv) (engines : List String)
    (hok : ∀ n, tryEngines (env.batchRender n) engines none = none) :
    ∀ (seq : List SeqElem) (n : Nat),
    ∃ l, (renderSequence env engines seq n).2 = .ok l
  | [], n => ⟨[], by simp [renderSequence]⟩
  | SeqElem.pdf p d :: rest, n => by
    obtain ⟨l, hl⟩ := renderSequence_all_ok env engines hok rest n
    exact ⟨p :: l, by simp [renderSequence, hl]⟩
  | SeqElem.mdBatch b d :: rest, n => by
    obtain ⟨l, hl⟩ := renderSequence_all_ok env engines hok rest (n + 1)
    refine ⟨("batch-" ++ toString n ++ ".pdf") :: l, ?_⟩
    simp [renderSequence, hok n, hl]

theorem mkEvents_mem (total : Nat) :
    ∀ (msgs : List String) (counter : Nat) (ev : ProgressEvent),
    ev ∈ mkEvents total counter msgs → ev.step ≤ total ∧ ev.total = total
  | [], _, _, h => absurd h (by simp [mkEvents])
  | m :: rest, counter, ev, h => by
    simp only [mkEvents, List.mem_cons] at h
    rcases h with h | h
    · subst h
      exact ⟨Nat.min_le_right _ _, rfl⟩
    · exact mkEvents_mem total rest (counter + 1) ev h

theorem exportFinish_totalSteps (format : ExportFormat) (env : ExportEnv)
    (totalSteps : Nat) (tp : Option Item) (engines : List String) (st2 : LoopState) :
    (exportFinish format env totalSteps tp engines st2).1.totalSteps = totalSteps := by
  simp only [exportFinish, traceOfState]
  (repeat' split) <;> rfl

theorem exportFinish_workdirRemoved (format : ExportFormat) (env : ExportEnv)
    (totalSteps : Nat) (tp : Option Item) (engines : List String) (st2 : LoopState) :
    (exportFinish format env totalSteps tp engines st2).1.workdirRemoved
      = (exceptIsOk (exportFinish format env totalSteps tp engines st2).2
          && env.rmWorkdirOk) := by
  simp only [exportFinish, traceOfState]
  (repeat' split) <;> simp [exceptIsOk]

theorem exportFinish_scrubRuns (format : ExportFormat) (env : ExportEnv)
    (totalSteps : Nat) (tp : Option Item) (engines : List String) (st2 : LoopState) :
    (exportFinish format env totalSteps tp engines st2).1.scrubRuns = st2.scrubRuns := by
  simp only [exportFinish, traceOfState]
  (repeat' split) <;> rfl

theorem exportFinish_failedPages (format : ExportFormat) (env : ExportEnv)
    (totalSteps : Nat) (tp : Option Item) (engines : List String) (st2 : LoopState) :
    (exportFinish format env totalSteps tp engines st2).1.failedPages = st2.failedPages := by
  simp only [exportFinish, traceOfState]
  (repeat' split) <;> rfl

theorem exportFinish_attrs (format : ExportFormat) (env : ExportEnv)
    (totalSteps : Nat) (tp : Option Item) (engines : List String) (st2 : LoopState) :
    (exportFinish format env totalSteps tp engines st2).1.wikiAttrs = st2.wikipediaAttribution
      ∧ (exportFinish format env totalSteps tp engines st2).1.webAttrs
          = st2.nonWikiAttribution := by
  simp only [exportFinish, traceOfState]
  constructor <;> ((repeat' split) <;> rfl)

theorem strData_append (a b : String) : (a ++ b).data = a.data ++ b.data := rfl

theorem jsIncludes_append_left (s t pat : String) (h : jsIncludes s pat = true) :
    jsIncludes (s ++ t) pat = true := by
  unfold jsIncludes at h ⊢
  rw [decide_eq_true_iff] at h ⊢
  obtain ⟨u, v, huv⟩ := h
  exact ⟨u, v ++ t.data, by rw [strData_append, ← huv]; simp⟩

theorem jsIncludes_append_right (s t pat : String) (h : jsIncludes t pat = true) :
    jsIncludes (s ++ t) pat = true := by
  unfold jsIncludes at h ⊢
  rw [decide_eq_true_iff] at h ⊢
  obtain ⟨u, v, huv⟩ := h
  exact ⟨s.data ++ u, v, by rw [strData_append, ← huv]; simp⟩

theorem processItems_append (f : ExportFormat) (env : ExportEnv) (l1 l2 : List Item)
    (st : LoopState) :
    processItems f env (l1 ++ l2) st = processItems f env l2 (processItems f env l1 st) := by
  simp [processItems, List.foldl_append]

theorem initialLoopState_fields (f : ExportFormat) (env : ExportEnv) (tp : Option Item) :
    (initialLoopState f env tp).inputs = []
      ∧ (initialLoopState f env tp).isFirstItem = true
      ∧ (initialLoopState f env tp).lastWasHeading = false
      ∧ (initialLoopState f env tp).failedPages = []
      ∧ (initialLoopState f env tp).scrubRuns = 0
      ∧ (initialLoopState f env tp).wikipediaAttribution = []
      ∧ (initialLoopState f env tp).nonWikiAttribution = []
      ∧ (initialLoopState f env tp).breakTrace = [] := by
  unfold initialLoopState
  (repeat' split) <;> simp

theorem exportProjectTo_eq (format : ExportFormat) (p : Project) (items : List Item)
    (o : ExportOptions) (env : ExportEnv)
    (h : format = ExportFormat.pdf → pdfEngines env ≠ []) :
    exportProjectTo format p items o env
      = exportFinish format env
          (4 + items.length + (if format = ExportFormat.pdf then 1 else 0))
          (items.find? (fun it => it.type = ItemType.titlepage))
          (if format = ExportFormat.pdf then pdfEngines env else [])
          (attributionPhase env p (processItems format env items
            (initialLoopState format env
              (items.find? (fun it => it.type = ItemType.titlepage))))) := by
  have hneg : ¬(format = ExportFormat.pdf
      ∧ (if format = ExportFormat.pdf then pdfEngines env else []) = []) := by
    rintro ⟨h1, h2⟩
    rw [if_pos h1] at h2
    exact h h1 h2
  simp only [exportProjectTo]
  rw [if_neg hneg]

theorem exportProjectTo_totalSteps (format : ExportFormat) (p : Project) (items : List Item)
    (o : ExportOptions) (env : ExportEnv) :
    (exportProjectTo format p items o env).1.totalSteps
      = 4 + items.length + (if format = ExportFormat.pdf then 1 else 0) := by
  simp only [exportProjectTo]
  (repeat' split) <;>
    first
      | rfl
      | exact exportFinish_totalSteps _ _ _ _ _ _
      | simp_all

theorem exportFinish_markdown_outContent (env : ExportEnv) (T : Nat) (tp : Option Item)
    (engines : List String) (st2 : LoopState) :
    (exportFinish ExportFormat.markdown env T tp engines st2).1.outContent
      = some (mdTitleHead tp ++ String.join (st2.inputs.map (fun c => c ++ "\n\n"))) := by
  simp [exportFinish, traceOfState]

theorem exportFinish_markdown_result (env : ExportEnv) (T : Nat) (tp : Option Item)
    (engines : List String) (st2 : LoopState) :
    (exportFinish ExportFormat.markdown env T tp engines st2).2
      = .ok ⟨env.outPath,
          if st2.failedPages.length > 0 then some st2.failedPages else none⟩ := by
  simp [exportFinish]

theorem fetchHtmlGo_all_marker (url : String) :
    ∀ (attempts : List (Except String FetchResponse)) (init : Option String),
    attempts ≠ [] →
    (∀ a ∈ attempts, ∃ r, a = .ok r ∧ cfMarker r.body = true) →
    fetchHtmlGo url attempts init = .error (fetchFailedMsg url (cfChallengeMsg url))
  | [], _, h, _ => absurd rfl h
  | a :: rest, init, _, hall => by
    obtain ⟨r, ha, hm⟩ := hall a (by simp)
    subst ha
    rcases hrest : rest with _ | ⟨a2, rest2⟩
    · simp [fetchHtmlGo, hm]
    · have ih := fetchHtmlGo_all_marker url (a2 :: rest2) init (by simp)
        (fun x hx => hall x (by rw [hrest]; exact List.mem_cons_of_mem _ hx))
      simp [fetchHtmlGo, hm, hrest, ih]

theorem convertUrlToMdSmart_bot (wikiHtml : Except String String)
    (convertMd : String → String) (url : String)
    (attempts : List (Except String FetchResponse)) (extractAndConvert : String → String)
    (hne : attempts ≠ [])
    (hall : ∀ a ∈ attempts, ∃ r, a = .ok r ∧ cfMarker r.body = true) :
    convertUrlToMdSmart false wikiHtml convertMd url attempts extractAndConvert
      = .ok botMarkerContent := by
  unfold convertUrlToMdSmart fetchHtml
  rw [fetchHtmlGo_all_marker url attempts none hne hall]
  simp only [reduceIte]
  have hbv : jsIncludes (fetchFailedMsg url (cfChallengeMsg url)) "browser verification"
      = true := by
    unfold fetchFailedMsg cfChallengeMsg
    apply jsIncludes_append_right
    apply jsIncludes_append_left
    decide
  simp [hbv]

theorem processItem_bot (f : ExportFormat) (env : ExportEnv) (st : LoopState) (it : Item)
    (ht : it.type = ItemType.url) (hc : it.cachedContent = none)
    (hw : it.isWiki = false) (hu : it.urlContent = .ok botMarkerContent) :
    processItem f env st it = { st with
      inputs := st.inputs
        ++ (if !st.isFirstItem && !st.lastWasHeading then [pagebreakMd] else []),
      breakTrace := st.breakTrace ++ [!st.isFirstItem && !st.lastWasHeading],
      lastWasHeading := false,
      isFirstItem := false,
      failedPages := st.failedPages ++ [⟨it.title, it.sourceUrl, botProtectionError⟩],
      msgs := st.msgs ++ ["Skipped (bot protection): " ++ it.title] } := by
  have hbm : botMarkerHit botMarkerContent = true := by decide
  unfold processItem processUrlContent
  simp only [ht, reduceCtorEq, reduceIte, hc, hu, hbm, hw]
  split <;> simp_all

theorem exportFinish_pdf_ok (env : ExportEnv) (T : Nat) (tp : Option Item)
    (engines : List String) (st2 : LoopState) (res : ExportResult)
    (h : (exportFinish ExportFormat.pdf env T tp engines st2).2 = .ok res) :
    (renderSequence env engines
        (exportFinish ExportFormat.pdf env T tp engines st2).1.pdfSeq 0).2
      = .ok (exportFinish ExportFormat.pdf env T tp engines st2).1.finalPdfSequence
    ∧ ((exportFinish ExportFormat.pdf env T tp engines st2).1.finalPdfSequence.length = 1 →
        (exportFinish ExportFormat.pdf env T tp engines st2).1.copiedSingle = true
        ∧ (exportFinish ExportFormat.pdf env T tp engines st2).1.mergeInvoked = false) := by
  simp only [exportFinish, traceOfState] at h ⊢
  (repeat' split) <;> (try simp_all) <;> (try omega)

theorem exportFinish_pdf_isOk (env : ExportEnv) (T : Nat) (tp : Option Item)
    (engines : List String) (st2 : LoopState)
    (hok : ∀ n, tryEngines (env.batchRender n) engines none = none)
    (hm : env.merger ≠ none) (hmr : env.mergeRun = .ok ()) :
    exceptIsOk (exportFinish ExportFormat.pdf env T tp engines st2).2 = true := by
  obtain ⟨l, hl⟩ := renderSequence_all_ok env engines hok
    (st2.pdfSequence
      ++ (if st2.inputs ≠ [] then [SeqElem.mdBatch st2.inputs "Final markdown content"]
          else [])) 0
  simp only [exportFinish]
  (repeat' split) <;> simp_all [exceptIsOk]

/-- C8 counterexample: a PDF export with no typesetting engine available
creates the temporary working directory (line 1407), then throws the
job-scoped `No PDF engine detected` error (line 1429) before ever
reaching the cleanup at line 1879 — so the job ends with a job-scoped
error and the directory is not removed, refuting the claim that the
directory is removed whether the pipeline returns successfully or
terminates with a job-scoped error. -/
theorem c8_counterexample :
    (exportProjectTo ExportFormat.pdf { } [] { } { }).1.workdirRemoved = false
    ∧ (exportProjectTo ExportFormat.pdf { } [] { } { }).2
        = .error "No PDF engine detected. Install tectonic or xelatex." :=
  ⟨rfl, rfl⟩

/-- C8 amended: the temporary working directory is removed exactly when
the pipeline returns successfully and the removal call itself succeeds;
every run that terminates with a job-scoped error (no engine, render
failure after all fallbacks, missing merge tool, merge failure, EPUB
render failure) leaves the directory in place. -/
theorem c8_workdir_cleanup (format : ExportFormat) (p : Project) (items : List Item)
    (o : ExportOptions) (env : ExportEnv) :
    (exportProjectTo format p items o env).1.workdirRemoved
      = (exceptIsOk (exportProjectTo format p items o env).2 && env.rmWorkdirOk) := by
  by_cases hc : format = ExportFormat.pdf ∧ pdfEngines env = []
  · obtain ⟨h1, h2⟩ := hc
    subst h1
    simp only [exportProjectTo, h2]
    simp [baseTrace, exceptIsOk]
  · have h : format = ExportFormat.pdf → pdfEngines env ≠ [] := by tauto
    rw [exportProjectTo_eq format p items o env h]
    exact exportFinish_workdirRemoved _ _ _ _ _ _

/-- C9 counterexample: two PDF exports against the same environment —
one heading item rendering to a single component (copied, no merge
invoked, reported total 6), and a heading plus a native PDF rendering to
two components (merge invoked, reported total 7) — show that no fixed
overhead makes the reported total equal overhead + one per item + one
exactly when a merge step is needed (the extra unit is charged whenever
the format is pdf, merge or not). -/
theorem c9_counterexample :
    (exportProjectTo ExportFormat.pdf { }
        [{ id := "h", type := ItemType.heading, title := "A" }] { }
        { tectonicPath := some "tectonic",
          merger := some ⟨"qpdf", "qpdf"⟩ }).1.totalSteps = 6
    ∧ (exportProjectTo ExportFormat.pdf { }
        [{ id := "h", type := ItemType.heading, title := "A" }] { }
        { tectonicPath := some "tectonic",
          merger := some ⟨"qpdf", "qpdf"⟩ }).1.mergeInvoked = false
    ∧ (exportProjectTo ExportFormat.pdf { }
        [{ id := "h", type := ItemType.heading, title := "A" }] { }
        { tectonicPath := some "tectonic",
          merger := some ⟨"qpdf", "qpdf"⟩ }).1.copiedSingle = true
    ∧ (exportProjectTo ExportFormat.pdf { }
        [{ id := "h", type := ItemType.heading, title := "A" },
         { id := "p", type := ItemType.pdf, title := "P", resolvedPath := some "x.pdf" }] { }
        { tectonicPath := some "tectonic",
          merger := some ⟨"qpdf", "qpdf"⟩ }).1.totalSteps = 7
    ∧ (exportProjectTo ExportFormat.pdf { }
        [{ id := "h", type := ItemType.heading, title := "A" },
         { id := "p", type := ItemType.pdf, title := "P", resolvedPath := some "x.pdf" }] { }
        { tectonicPath := some "tectonic",
          merger := some ⟨"qpdf", "qpdf"⟩ }).1.mergeInvoked = true
    ∧ ∀ overhead : Nat, ¬(6 = overhead + 1 + 0 ∧ 7 = overhead + 2 + 1) := by
  refine ⟨rfl, rfl, rfl, rfl, rfl, ?_⟩
  intro k
  omega

/-- C9 amended: the progress total reported to callers is
4 + one unit per item in the snapshot + one additional unit exactly when
the format is pdf (line 1402) — charged whether or not the run actually
merges — and every reported progress event carries that total. -/
theorem c9_total_formula (format : ExportFormat) (p : Project) (items : List Item)
    (o : ExportOptions) (env : ExportEnv) :
    (exportProjectTo format p items o env).1.totalSteps
      = 4 + items.length + (if format = ExportFormat.pdf then 1 else 0)
    ∧ ∀ ev ∈ traceEvents (exportProjectTo format p items o env).1,
        ev.total = (exportProjectTo format p items o env).1.totalSteps := by
  refine ⟨exportProjectTo_totalSteps format p items o env, ?_⟩
  intro ev hev
  exact (mkEvents_mem _ _ _ ev hev).2

/-- Witness for the amended C9 theorem at a concrete run. -/
theorem c9_total_formula_witness :
    (⟨1, 4, "Preparing workspace"⟩ : ProgressEvent).total
      = (exportProjectTo ExportFormat.markdown { } [] { } { }).1.totalSteps :=
  (c9_total_formula ExportFormat.markdown { } [] { } { }).2
    ⟨1, 4, "Preparing workspace"⟩ (by decide)

/-- C10: every progress state stored for an export job — the initial
state, each per-stage callback state (whose step counter is capped at the
computed total by `Math.min`, line 1404), and the terminal success and
error states — satisfies 0 ≤ step ≤ total, so a poller never computes a
completion fraction above 100%. -/
theorem c10_progress_bound (format : ExportFormat) (p : Project) (items : List Item)
    (o : ExportOptions) (env : ExportEnv) (s : ProgressState)
    (hs : s ∈ routeExportStates format p items o env) :
    0 ≤ s.step ∧ s.step ≤ s.total := by
  simp only [routeExportStates] at hs
  rcases List.mem_append.1 hs with h1 | h2
  · rcases List.mem_append.1 h1 with ha | hb
    · have : s = ⟨0, 1, "Starting export...", false, none⟩ := by simpa using ha
      subst this
      exact ⟨Nat.zero_le _, by norm_num⟩
    · obtain ⟨e, he, hes⟩ := List.mem_map.1 hb
      obtain ⟨hstep, htot⟩ := mkEvents_mem _ _ _ e he
      subst hes
      exact ⟨Nat.zero_le _, by simpa [htot] using hstep⟩
  · rcases hres : (exportProjectTo format p items o env).2 with e | r <;>
      rw [hres] at h2 <;> simp at h2 <;> subst h2 <;>
      exact ⟨Nat.zero_le _, Nat.le_refl _⟩

/-- Witness for C10 at a concrete run and stored state. -/
theorem c10_progress_bound_witness :
    0 ≤ (⟨0, 1, "Starting export...", false, none⟩ : ProgressState).step
    ∧ (⟨0, 1, "Starting export...", false, none⟩ : ProgressState).step
        ≤ (⟨0, 1, "Starting export...", false, none⟩ : ProgressState).total :=
  c10_progress_bound ExportFormat.markdown { } [] { } { }
    ⟨0, 1, "Starting export...", false, none⟩ (by decide)

/-- C6 counterexample: an image item with no caption option, no explicit
width option and no title is emitted with alt text `Image`
(`caption || it.title || "Image"`, line 1698), not `Untitled` — refuting
the claimed `Untitled` default. -/
theorem c6_counterexample :
    (processItem ExportFormat.markdown { }
        (initialLoopState ExportFormat.markdown { } none)
        { id := "7", type := ItemType.image, hasLocalPath := true,
          resolvedPath := some "f/p.png" }).inputs
      = ["![Image](img-7.png)\x7bwidth=80%\x7d\n\n"]
    ∧ ("![Image](img-7.png)\x7bwidth=80%\x7d\n\n" : String)
        ≠ "![Untitled](img-7.png)\x7bwidth=80%\x7d\n\n" :=
  ⟨by decide, by decide⟩

/-- C6 amended: for every image item with no caption option and no
explicit width option, the emitted markdown image directive carries a
caption equal to the item's title — or `Image` (not `Untitled`) when the
title is absent — and width 80%; and for every image item the effective
width percentage is clamped to the interval [10, 100]. -/
theorem c6_image_defaults (f : ExportFormat) (env : ExportEnv) (st : LoopState)
    (it : Item) (abs : String)
    (ht : it.type = ItemType.image) (hcap : it.caption = none) (hwp : it.widthPct = none)
    (hl : it.hasLocalPath = true) (hres : it.resolvedPath = some abs)
    (hfirst : st.isFirstItem = true) :
    ((processItem f env st it).inputs
      = st.inputs ++ [(if it.title ≠ "" then "# " ++ it.title ++ "\n\n" else "")
          ++ imageDirective (jsOr it.title "Image")
              ("img-" ++ it.id ++ strToLower (jsOr (extname abs) ".bin")) 80])
    ∧ ∀ w : Option Int, 10 ≤ effectiveWidthPct w ∧ effectiveWidthPct w ≤ 100 := by
  constructor
  · unfold processItem
    simp only [ht, reduceCtorEq, reduceIte, hcap, hl, hres, hfirst]
    simp [emitImage, imageAlt, hwp,
      show jsTrim "" = "" from by decide,
      show jsOr "" (jsOr it.title "Image") = jsOr it.title "Image" from by simp [jsOr],
      show effectiveWidthPct none = 80 from by decide]
  · intro w
    unfold effectiveWidthPct
    exact ⟨le_min (by norm_num) (le_max_left _ _), min_le_left _ _⟩

/-- Witness for the amended C6 theorem at a concrete image item. -/
theorem c6_image_defaults_witness :
    (processItem ExportFormat.markdown { }
        (initialLoopState ExportFormat.markdown { } none)
        { id := "7", type := ItemType.image, title := "Photo", hasLocalPath := true,
          resolvedPath := some "f/p.png" }).inputs
      = (initialLoopState ExportFormat.markdown { } none).inputs
        ++ [(if ("Photo" : String) ≠ "" then "# " ++ "Photo" ++ "\n\n" else "")
            ++ imageDirective (jsOr "Photo" "Image")
                ("img-" ++ "7" ++ strToLower (jsOr (extname "f/p.png") ".bin")) 80] :=
  (c6_image_defaults ExportFormat.markdown { }
    (initialLoopState ExportFormat.markdown { } none)
    { id := "7", type := ItemType.image, title := "Photo", hasLocalPath := true,
      resolvedPath := some "f/p.png" } "f/p.png"
    rfl rfl rfl rfl rfl rfl).1

/-- C7 counterexample: a markdown export (a format other than PDF) with
one docx item still runs the SVG-resolution pass `scrubMarkdownForPdf`
once — the call at line 1598 is not guarded by the format — refuting the
claim that the pass runs only when the target format is PDF and is
skipped for EPUB and markdown. -/
theorem c7_counterexample :
    ExportFormat.markdown ≠ ExportFormat.pdf
    ∧ (exportProjectTo ExportFormat.markdown { }
        [{ id := "d", type := ItemType.docx, title := "D",
           resolvedPath := some "w/d.docx" }] { } { }).1.scrubRuns = 1 :=
  ⟨by decide, rfl⟩

/-- C7 amended: the SVG-resolution pass is not format-gated: also for
markdown and EPUB targets it runs once per docx item whose file
resolves, once per url/wikipedia item whose content arrives and is not
the bot-protection placeholder, and once more for the attribution
section when any attribution was collected. -/
theorem c7_scrub_not_format_gated (format : ExportFormat) (p : Project)
    (items : List Item) (o : ExportOptions) (env : ExportEnv)
    (hf : format ≠ ExportFormat.pdf) :
    (exportProjectTo format p items o env).1.scrubRuns
      = (items.map itemScrubCount).sum
        + (if (exportProjectTo format p items o env).1.wikiAttrs ≠ []
              ∨ (exportProjectTo format p items o env).1.webAttrs ≠ [] then 1 else 0) := by
  have h : format = ExportFormat.pdf → pdfEngines env ≠ [] := fun hh => absurd hh hf
  rw [exportProjectTo_eq format p items o env h]
  obtain ⟨hw, hnw, _, _, hscrub⟩ := attributionPhase_attrs env p
    (processItems format env items
      (initialLoopState format env
        (items.find? (fun it => it.type = ItemType.titlepage))))
  obtain ⟨hfw, hfnw⟩ := exportFinish_attrs format env
    (4 + items.length + (if format = ExportFormat.pdf then 1 else 0))
    (items.find? (fun it => it.type = ItemType.titlepage))
    (if format = ExportFormat.pdf then pdfEngines env else [])
    (attributionPhase env p (processItems format env items
      (initialLoopState format env
        (items.find? (fun it => it.type = ItemType.titlepage)))))
  rw [exportFinish_scrubRuns, hscrub, processItems_scrubRuns, hfw, hfnw, hw, hnw]
  have h0 := (initialLoopState_fields format env
    (items.find? (fun it => it.type = ItemType.titlepage))).2.2.2.2.1
  rw [h0]
  simp

/-- Witness for the amended C7 theorem at a concrete markdown export. -/
theorem c7_scrub_not_format_gated_witness :
    (exportProjectTo ExportFormat.markdown { }
        [{ id := "d", type := ItemType.docx, title := "D",
           resolvedPath := some "w/d.docx" }] { } { }).1.scrubRuns
      = ([({ id := "d", type := ItemType.docx, title := "D",
             resolvedPath := some "w/d.docx" } : Item)].map itemScrubCount).sum
        + (if (exportProjectTo ExportFormat.markdown { }
              [{ id := "d", type := ItemType.docx, title := "D",
                 resolvedPath := some "w/d.docx" }] { } { }).1.wikiAttrs ≠ []
            ∨ (exportProjectTo ExportFormat.markdown { }
              [{ id := "d", type := ItemType.docx, title := "D",
                 resolvedPath := some "w/d.docx" }] { } { }).1.webAttrs ≠ []
          then 1 else 0) :=
  c7_scrub_not_format_gated ExportFormat.markdown { }
    [{ id := "d", type := ItemType.docx, title := "D",
       resolvedPath := some "w/d.docx" }] { } { } (by decide)

theorem breakTraceOf_getD_pair :
    ∀ (pre : List Item) (a b : Item) (post : List Item) (isF lastH dflt : Bool),
    (breakTraceOf (pre ++ a :: b :: post) isF lastH).getD (pre.length + 1) dflt
      = brkFlagOf b false (decide (a.type = ItemType.heading))
  | [], a, b, post, isF, lastH, d => by simp [breakTraceOf]
  | x :: pre2, a, b, post, isF, lastH, d => by
    simp only [List.cons_append, breakTraceOf, List.length_cons]
    rw [show pre2.length + 1 + 1 = (pre2.length + 1) + 1 from rfl, List.getD_cons_succ]
    exact breakTraceOf_getD_pair pre2 a b post false _ d

/-- C3 counterexample: in the item sequence [url A, url B, title page],
the adjacent pair (B, title page) has an earlier member that is neither
a heading nor the first item, yet no page break is pushed when the title
page is processed (the titlepage branch at line 1495 skips before the
page-break decision): the loop's per-item break trace is
[false, true, false], whose entry for the title page is false, not true
as the claim requires. -/
theorem c3_counterexample :
    (processItems ExportFormat.markdown { }
        [{ id := "a", type := ItemType.url, title := "A", cachedContent := some "X" },
         { id := "b", type := ItemType.url, title := "B", cachedContent := some "Y" },
         { id := "t", type := ItemType.titlepage, title := "T" }]
        (initialLoopState ExportFormat.markdown { } none)).breakTrace
      = [false, true, false]
    ∧ ([false, true, false].getD 2 false = false) :=
  ⟨by decide, by decide⟩

/-- C3 amended: over the snapshot in position order, (i) for every
adjacent pair whose earlier member is a heading, no page break is pushed
for the later member; (ii) for every adjacent pair whose earlier member
is neither a heading nor the first item, a forced page break is pushed
for the later member — unless the later member is a title page, which is
hoisted out of the flow and never receives a pushed break. -/
theorem c3_heading_adjacency (format : ExportFormat) (env : ExportEnv)
    (pre : List Item) (a b : Item) (post : List Item) (tp : Option Item) :
    ((a.type = ItemType.heading →
      (processItems format env (pre ++ a :: b :: post)
          (initialLoopState format env tp)).breakTrace.getD (pre.length + 1) true
        = false)
    ∧ (a.type ≠ ItemType.heading → pre ≠ [] → b.type ≠ ItemType.titlepage →
      (processItems format env (pre ++ a :: b :: post)
          (initialLoopState format env tp)).breakTrace.getD (pre.length + 1) false
        = true)) := by
  have hbt := processItems_breakTrace format env (pre ++ a :: b :: post)
    (initialLoopState format env tp)
  obtain ⟨_, hisF, hlast, _, _, _, _, hbrk⟩ := initialLoopState_fields format env tp
  rw [hisF, hlast, hbrk] at hbt
  rw [hbt]
  simp only [List.nil_append]
  constructor
  · intro ha
    rw [breakTraceOf_getD_pair, ha]
    simp [brkFlagOf]
  · intro ha _ hb
    rw [breakTraceOf_getD_pair]
    have : decide (a.type = ItemType.heading) = false := by simpa using ha
    rw [this]
    simp [brkFlagOf, hb]

/-- Witness for the amended C3 theorem: part (i) at [heading, url] and
part (ii) at [url, url, url]. -/
theorem c3_heading_adjacency_witness :
    ((processItems ExportFormat.markdown { }
        ([] ++ { id := "h", type := ItemType.heading, title := "H" }
          :: { id := "u", type := ItemType.url, title := "U", cachedContent := some "X" }
          :: [])
        (initialLoopState ExportFormat.markdown { } none)).breakTrace.getD 1 true = false)
    ∧ ((processItems ExportFormat.markdown { }
        ([{ id := "a", type := ItemType.url, title := "A", cachedContent := some "X" }]
          ++ { id := "b", type := ItemType.url, title := "B", cachedContent := some "Y" }
          :: { id := "c", type := ItemType.url, title := "C", cachedContent := some "Z" }
          :: [])
        (initialLoopState ExportFormat.markdown { } none)).breakTrace.getD 2 false = true) :=
  ⟨(c3_heading_adjacency ExportFormat.markdown { } []
      { id := "h", type := ItemType.heading, title := "H" }
      { id := "u", type := ItemType.url, title := "U", cachedContent := some "X" }
      [] none).1 rfl,
   (c3_heading_adjacency ExportFormat.markdown { }
      [{ id := "a", type := ItemType.url, title := "A", cachedContent := some "X" }]
      { id := "b", type := ItemType.url, title := "B", cachedContent := some "Y" }
      { id := "c", type := ItemType.url, title := "C", cachedContent := some "Z" }
      [] none).2 (by decide) (by simp) (by decide)⟩

/-- C2 counterexample: a markdown export of two successfully fetched url
items is not the bare blank-line-separated concatenation of their two
normalized fragments: a forced page-break marker file is interposed
between them (pushed by the page-break policy at line 1519 and
concatenated by the markdown branch at lines 1780-1783), and each
fragment is followed — not merely separated — by a blank line. -/
theorem c2_counterexample :
    (exportProjectTo ExportFormat.markdown { }
        [{ id := "a", type := ItemType.url, title := "A", cachedContent := some "X" },
         { id := "b", type := ItemType.url, title := "B", cachedContent := some "Y" }]
        { } { }).1.outContent
      = some ("# A\n\nX\n\n" ++ pagebreakMd ++ "\n\n" ++ "# B\n\nY\n\n")
    ∧ ("# A\n\nX\n\n" ++ pagebreakMd ++ "\n\n" ++ "# B\n\nY\n\n" : String)
        ≠ "# A\n\nX" ++ "\n\n" ++ "# B\n\nY" :=
  ⟨by decide, by decide⟩

/-- C2 amended: the markdown output is the title-page prefix followed by
the concatenation of the collected fragments, each terminated by one
blank line; the collected fragments are per item, in position order, a
page-break marker when the page-break policy applies followed by the
item's normalized fragment when the item is non-failed (nothing for
title pages and failed items), with the attribution section appended
when any attribution was collected. -/
theorem c2_markdown_concatenation (p : Project) (items : List Item)
    (o : ExportOptions) (env : ExportEnv) :
    ((exportProjectTo ExportFormat.markdown p items o env).1.outContent
      = some (mdTitleHead (items.find? (fun it => it.type = ItemType.titlepage))
          ++ String.join ((mdEmissions env items true false
              ++ (if (exportProjectTo ExportFormat.markdown p items o env).1.wikiAttrs ≠ []
                    ∨ (exportProjectTo ExportFormat.markdown p items o env).1.webAttrs ≠ [] then
                  [(env.scrub (attributionContent env p
                      (exportProjectTo ExportFormat.markdown p items o env).1.wikiAttrs
                      (exportProjectTo ExportFormat.markdown p items o env).1.webAttrs)).1]
                else [])).map (fun c => c ++ "\n\n"))))
    ∧ ∀ (it : Item) (isF lastH : Bool),
        emissionsOf env it isF lastH
          = (if brkFlagOf it isF lastH then [pagebreakMd] else [])
            ++ (fragmentOf env it).toList := by
  constructor
  · have h : ExportFormat.markdown = ExportFormat.pdf → pdfEngines env ≠ [] := by
      intro hh
      exact absurd hh (by decide)
    rw [exportProjectTo_eq ExportFormat.markdown p items o env h]
    obtain ⟨hw, hnw, _, _, _⟩ := attributionPhase_attrs env p
      (processItems ExportFormat.markdown env items
        (initialLoopState ExportFormat.markdown env
          (items.find? (fun it => it.type = ItemType.titlepage))))
    obtain ⟨hfw, hfnw⟩ := exportFinish_attrs ExportFormat.markdown env
      (4 + items.length + (if ExportFormat.markdown = ExportFormat.pdf then 1 else 0))
      (items.find? (fun it => it.type = ItemType.titlepage))
      (if ExportFormat.markdown = ExportFormat.pdf then pdfEngines env else [])
      (attributionPhase env p
        (processItems ExportFormat.markdown env items
          (initialLoopState ExportFormat.markdown env
            (items.find? (fun it => it.type = ItemType.titlepage)))))
    rw [exportFinish_markdown_outContent, hfw, hfnw, hw, hnw, attributionPhase_inputs,
      processItems_inputs_markdown,
      (initialLoopState_fields ExportFormat.markdown env
        (items.find? (fun it => it.type = ItemType.titlepage))).1,
      (initialLoopState_fields ExportFormat.markdown env
        (items.find? (fun it => it.type = ItemType.titlepage))).2.1,
      (initialLoopState_fields ExportFormat.markdown env
        (items.find? (fun it => it.type = ItemType.titlepage))).2.2.1]
    simp
  · exact fun it isF lastH => emissionsOf_shape env it isF lastH

/-- C5: for every markdown batch the candidate engines are tried in
priority order with fallback on failure — the batch succeeds as soon as
any candidate succeeds, and fails only when every candidate fails, in
which case the last candidate's error is surfaced — and a PDF export
whose primary engine (tectonic) is unavailable still succeeds through
the secondary engine (xelatex). -/
theorem c5_engine_fallback :
    (∀ (attempt : String → Except String Unit) (engines : List String)
        (init : Option String), engines ≠ [] →
      (tryEngines attempt engines init = none
        ↔ engines.any (fun e => exceptIsOk (attempt e)) = true))
    ∧ (∀ (attempt : String → Except String Unit) (msgOf : String → String)
        (front : List String) (last : String) (init : Option String),
        (∀ e ∈ front ++ [last], attempt e = .error (msgOf e)) →
        tryEngines attempt (front ++ [last]) init = some (msgOf last))
    ∧ (∀ (p : Project) (items : List Item) (o : ExportOptions) (env : ExportEnv)
        (xp : String),
        env.tectonicPath = none → env.xelatexPath = some xp →
        (∀ n, env.batchRender n xp = .ok ()) →
        env.merger ≠ none → env.mergeRun = .ok () →
        exceptIsOk (exportProjectTo ExportFormat.pdf p items o env).2 = true) := by
  refine ⟨fun attempt => tryEngines_none_iff attempt,
    fun attempt msgOf => tryEngines_all_fail attempt msgOf, ?_⟩
  intro p items o env xp ht hx hbr hm hmr
  have hengines : pdfEngines env = [xp] := by simp [pdfEngines, ht, hx]
  have h : ExportFormat.pdf = ExportFormat.pdf → pdfEngines env ≠ [] := by
    simp [hengines]
  rw [exportProjectTo_eq ExportFormat.pdf p items o env h]
  simp only [reduceIte]
  apply exportFinish_pdf_isOk
  · intro n
    simp [hengines, tryEngines, hbr n]
  · exact hm
  · exact hmr

/-- Witness for C5: the fallback loop succeeds when only the second
engine works, surfaces the last error when all fail, and a concrete PDF
export with tectonic unavailable and xelatex available completes. -/
theorem c5_engine_fallback_witness :
    (tryEngines (fun e => if e = "xe" then Except.ok () else Except.error "boom")
        ["tec", "xe"] none = none
      ↔ (["tec", "xe"].any fun e =>
          exceptIsOk (if e = "xe" then Except.ok () else Except.error "boom")) = true)
    ∧ tryEngines (fun _ => (Except.error "bad" : Except String Unit))
        (["e1"] ++ ["e2"]) none = some "bad"
    ∧ exceptIsOk (exportProjectTo ExportFormat.pdf { } [] { }
        { xelatexPath := some "xe", merger := some ⟨"qpdf", "qpdf"⟩ }).2 = true :=
  ⟨c5_engine_fallback.1 (fun e => if e = "xe" then Except.ok () else Except.error "boom")
      ["tec", "xe"] none (by decide),
   c5_engine_fallback.2.1 (fun _ => Except.error "bad") (fun _ => "bad")
      ["e1"] "e2" none (fun e _ => rfl),
   c5_engine_fallback.2.2 { } [] { }
      { xelatexPath := some "xe", merger := some ⟨"qpdf", "qpdf"⟩ } "xe"
      rfl rfl (fun _ => rfl) (by simp) rfl⟩

/-- C1: for a PDF export that returns successfully and whose assembly
sequence mixes native PDF components and markdown batches, the final
output's components correspond one-to-one and in order to the assembled
sequence (the i-th final component is the i-th sequence element's native
path, or the batch PDF numbered by the markdown batches before it); and
when the final sequence has exactly one component, that component is
copied directly to the output path and no merge tool is invoked. -/
theorem c1_pdf_assembly_order (p : Project) (items : List Item) (o : ExportOptions)
    (env : ExportEnv) (res : ExportResult)
    (hok : (exportProjectTo ExportFormat.pdf p items o env).2 = .ok res) :
    (((∃ x ∈ (exportProjectTo ExportFormat.pdf p items o env).1.pdfSeq, isMdBatch x = false)
      ∧ (∃ x ∈ (exportProjectTo ExportFormat.pdf p items o env).1.pdfSeq, isMdBatch x = true)) →
      ((exportProjectTo ExportFormat.pdf p items o env).1.finalPdfSequence.length
          = (exportProjectTo ExportFormat.pdf p items o env).1.pdfSeq.length
        ∧ ∀ i, i < (exportProjectTo ExportFormat.pdf p items o env).1.pdfSeq.length →
            (exportProjectTo ExportFormat.pdf p items o env).1.finalPdfSequence.getD i ""
              = componentOf
                  ((exportProjectTo ExportFormat.pdf p items o env).1.pdfSeq.getD i
                    (SeqElem.pdf "" ""))
                  (mdCountBefore (exportProjectTo ExportFormat.pdf p items o env).1.pdfSeq i)))
    ∧ ((exportProjectTo ExportFormat.pdf p items o env).1.finalPdfSequence.length = 1 →
        (exportProjectTo ExportFormat.pdf p items o env).1.copiedSingle = true
        ∧ (exportProjectTo ExportFormat.pdf p items o env).1.mergeInvoked = false) := by
  by_cases he : pdfEngines env = []
  · exfalso
    simp [exportProjectTo, he] at hok
  · have heq := exportProjectTo_eq ExportFormat.pdf p items o env (fun _ => he)
    rw [heq] at hok ⊢
    obtain ⟨hrender, hsingle⟩ := exportFinish_pdf_ok _ _ _ _ _ _ hok
    refine ⟨fun _ => ?_, hsingle⟩
    obtain ⟨hlen, hget⟩ := renderSequence_ok _ _ _ 0 _ hrender
    refine ⟨hlen, fun i hi => ?_⟩
    rw [hget i hi]
    simp

set_option maxRecDepth 8000 in
/-- Witness for C1 at a concrete mixed run: one markdown batch followed
by one native PDF. -/
theorem c1_pdf_assembly_order_witness :
    (exportProjectTo ExportFormat.pdf { }
        [{ id := "h", type := ItemType.heading, title := "A" },
         { id := "p", type := ItemType.pdf, title := "P", resolvedPath := some "x.pdf" }] { }
        { tectonicPath := some "tec",
          merger := some ⟨"qpdf", "qpdf"⟩ }).1.finalPdfSequence.length
      = (exportProjectTo ExportFormat.pdf { }
        [{ id := "h", type := ItemType.heading, title := "A" },
         { id := "p", type := ItemType.pdf, title := "P", resolvedPath := some "x.pdf" }] { }
        { tectonicPath := some "tec",
          merger := some ⟨"qpdf", "qpdf"⟩ }).1.pdfSeq.length :=
  ((c1_pdf_assembly_order { }
      [{ id := "h", type := ItemType.heading, title := "A" },
       { id := "p", type := ItemType.pdf, title := "P", resolvedPath := some "x.pdf" }] { }
      { tectonicPath := some "tec", merger := some ⟨"qpdf", "qpdf"⟩ }
      ⟨"out", none⟩ rfl).1
    ⟨⟨SeqElem.pdf "x.pdf" "P", by decide, by decide⟩,
     ⟨SeqElem.mdBatch ["# A\n\n"] "Markdown content batch", by decide, by decide⟩⟩).1

set_option maxRecDepth 8000 in
/-- C4: for a url item whose fetched response bodies all carry a known
bot-protection challenge marker, the fetch retry loop surfaces a
browser-verification error, `convertUrlToMdSmart` writes the
bot-protection marker file instead of throwing, the export records the
item in the failed list with the bot-specific reason (distinct from
every generic fetch-loop error message), the item contributes nothing to
the document beyond the page-break bookkeeping while the loop simply
continues with the next item, and a markdown export job still completes
successfully. -/
theorem c4_bot_protection (format : ExportFormat) (p : Project) (o : ExportOptions)
    (env : ExportEnv) (pre post : List Item) (it : Item) (url : String)
    (attempts : List (Except String FetchResponse)) (wikiHtml : Except String String)
    (convertMd extractAndConvert : String → String)
    (ht : it.type = ItemType.url) (hc : it.cachedContent = none) (hw : it.isWiki = false)
    (hu : it.urlContent
      = convertUrlToMdSmart false wikiHtml convertMd url attempts extractAndConvert)
    (hne : attempts ≠ [])
    (hall : ∀ a ∈ attempts, ∃ r, a = .ok r ∧ cfMarker r.body = true)
    (heng : format = ExportFormat.pdf → pdfEngines env ≠ []) :
    it.urlContent = .ok botMarkerContent
    ∧ (⟨it.title, it.sourceUrl, botProtectionError⟩ : FailedPage)
        ∈ (exportProjectTo format p (pre ++ it :: post) o env).1.failedPages
    ∧ (∀ st : LoopState, processItem format env st it = { st with
        inputs := st.inputs
          ++ (if !st.isFirstItem && !st.lastWasHeading then [pagebreakMd] else []),
        breakTrace := st.breakTrace ++ [!st.isFirstItem && !st.lastWasHeading],
        lastWasHeading := false,
        isFirstItem := false,
        failedPages := st.failedPages ++ [⟨it.title, it.sourceUrl, botProtectionError⟩],
        msgs := st.msgs ++ ["Skipped (bot protection): " ++ it.title] })
    ∧ (format = ExportFormat.markdown →
        exceptIsOk (exportProjectTo format p (pre ++ it :: post) o env).2 = true)
    ∧ jsIncludes botProtectionError "Fetch failed" = false
    ∧ (∀ u last, jsIncludes (fetchFailedMsg u last) "Fetch failed" = true) := by
  have hbot : it.urlContent = .ok botMarkerContent := by
    rw [hu]
    exact convertUrlToMdSmart_bot wikiHtml convertMd url attempts extractAndConvert hne hall
  have hstep := fun st => processItem_bot format env st it ht hc hw hbot
  refine ⟨hbot, ?_, hstep, ?_, by decide, ?_⟩
  · rw [exportProjectTo_eq format p (pre ++ it :: post) o env heng,
      exportFinish_failedPages, (attributionPhase_attrs _ _ _).2.2.1,
      processItems_append, processItems_cons, hstep]
    obtain ⟨l, hl⟩ := processItems_failedPages format env post _
    rw [hl]
    simp
  · intro hf
    subst hf
    rw [exportProjectTo_eq ExportFormat.markdown p (pre ++ it :: post) o env heng,
      exportFinish_markdown_result]
    rfl
  · intro u last
    unfold fetchFailedMsg
    apply jsIncludes_append_left
    apply jsIncludes_append_left
    apply jsIncludes_append_left
    decide

/-- Witness for C4 at a concrete markdown export of a single
bot-protected url item. -/
theorem c4_bot_protection_witness :
    (⟨"T", "http://x.com", botProtectionError⟩ : FailedPage)
      ∈ (exportProjectTo ExportFormat.markdown { }
          ([] ++ { id := "u", type := ItemType.url, title := "T",
                   sourceUrl := "http://x.com",
                   urlContent := convertUrlToMdSmart false (Except.ok "") id "http://x.com"
                     [Except.ok { body := "Just a moment" },
                      Except.ok { body := "Just a moment" },
                      Except.ok { body := "Just a moment" },
                      Except.ok { body := "Just a moment" }] id } :: [])
          { } { }).1.failedPages :=
  (c4_bot_protection ExportFormat.markdown { } { } { } [] []
    { id := "u", type := ItemType.url, title := "T", sourceUrl := "http://x.com",
      urlContent := convertUrlToMdSmart false (Except.ok "") id "http://x.com"
        [Except.ok { body := "Just a moment" },
         Except.ok { body := "Just a moment" },
         Except.ok { body := "Just a moment" },
         Except.ok { body := "Just a moment" }] id }
    "http://x.com"
    [Except.ok { body := "Just a moment" },
     Except.ok { body := "Just a moment" },
     Except.ok { body := "Just a moment" },
     Except.ok { body := "Just a moment" }]
    (Except.ok "") id id
    rfl rfl rfl rfl (by simp)
    (by
      intro a ha
      simp at ha
      subst ha
      exact ⟨{ body := "Just a moment" }, rfl, by decide⟩)
    (fun h => absurd h (by decide))).2.1

end Myo
